import Mathlib

/-!
Shallow embedding of the longitudinal MPC helpers
(selfdrive/controls/lib/longitudinal_mpc_lib/long_mpc.py) and of the
cruise-speed arbiter (selfdrive/frogpilot/controls/lib/frogpilot_vcruise.py).

Python floats are modelled as exact rationals.  The transcendental
functions used by the code (exp, sqrt) are passed in as explicit function
parameters named rexp / rsqrt: every theorem below holds for an arbitrary
interpretation of those parameters unless a positivity hypothesis is
stated, so the results are insensitive to the floating-point realisation
of exp and sqrt.
-/

namespace FrogPilot

/-- numpy clip: np.clip(a, lo, hi) = min (max a lo) hi. -/
def npclip (a lo hi : ℚ) : ℚ := min (max a lo) hi

/-- openpilot common.numpy_fast.clip: max(lo, min(hi, x)). -/
def pyclip (x lo hi : ℚ) : ℚ := max lo (min hi x)

/-- Modelled from the spec: the fixed, non-uniform, monotonically increasing
time grid spanning 0..10 s with front-loaded resolution (the quadratic grid
`index_function` from the model constants, which is not under src/):
T_IDXS i = 10 * (i/12)^2 for i = 0..12. -/
def T_IDXS (i : ℕ) : ℚ := 10 * ((i : ℚ) / 12) ^ 2

/-- T_DIFFS = np.diff(T_IDXS, prepend=[0.]). -/
def T_DIFFS : ℕ → ℚ
  | 0 => T_IDXS 0
  | (i + 1) => T_IDXS (i + 1) - T_IDXS i

/-- np.cumsum over an (infinite) index sequence: cumsum f i = f 0 + ... + f i. -/
def cumsum (f : ℕ → ℚ) : ℕ → ℚ
  | 0 => f 0
  | (i + 1) => cumsum f i + f (i + 1)

theorem T_IDXS_zero : T_IDXS 0 = 0 := by
  simp [T_IDXS]

theorem T_IDXS_nonneg (i : ℕ) : 0 ≤ T_IDXS i := by
  have : (0:ℚ) ≤ ((i : ℚ) / 12) ^ 2 := sq_nonneg _
  simpa [T_IDXS] using by positivity

theorem T_IDXS_mono (i : ℕ) : T_IDXS i ≤ T_IDXS (i + 1) := by
  have h0 : (0:ℚ) ≤ (i : ℚ) / 12 := by positivity
  have h1 : ((i : ℚ)) / 12 ≤ ((i : ℚ) + 1) / 12 := by
    apply div_le_div_of_nonneg_right _ (by norm_num)
    linarith
  have h2 : ((i : ℚ) / 12) ^ 2 ≤ (((i : ℚ) + 1) / 12) ^ 2 :=
    pow_le_pow_left₀ h0 h1 2
  have : (10:ℚ) * ((i : ℚ) / 12) ^ 2 ≤ 10 * (((i : ℚ) + 1) / 12) ^ 2 := by
    nlinarith
  simpa [T_IDXS, Nat.cast_add] using this

theorem T_DIFFS_nonneg (i : ℕ) : 0 ≤ T_DIFFS i := by
  cases i with
  | zero => simp [T_DIFFS, T_IDXS]
  | succ k =>
    have := T_IDXS_mono k
    simp [T_DIFFS]
    linarith

/-- COMFORT_BRAKE = 2.5 -/
def COMFORT_BRAKE : ℚ := 5 / 2

/-- STOP_DISTANCE = 6.0 -/
def STOP_DISTANCE : ℚ := 6

/-- get_stopped_equivalence_factor(v_lead) = v_lead**2 / (2 * COMFORT_BRAKE) -/
def get_stopped_equivalence_factor (v_lead : ℚ) : ℚ :=
  v_lead ^ 2 / (2 * COMFORT_BRAKE)

/-- get_safe_obstacle_distance(v_ego, t_follow)
    = v_ego**2 / (2 * COMFORT_BRAKE) + t_follow * v_ego + STOP_DISTANCE -/
def get_safe_obstacle_distance (v_ego t_follow : ℚ) : ℚ :=
  v_ego ^ 2 / (2 * COMFORT_BRAKE) + t_follow * v_ego + STOP_DISTANCE

/-- desired_follow_distance(v_ego, v_lead, t_follow)
    = get_safe_obstacle_distance(v_ego, t_follow)
      - get_stopped_equivalence_factor(v_lead) -/
def desired_follow_distance (v_ego v_lead t_follow : ℚ) : ℚ :=
  get_safe_obstacle_distance v_ego t_follow - get_stopped_equivalence_factor v_lead

/-- Claim C3: desired_follow_distance(v_ego, v_lead, t_follow) equals
(v_ego^2/(2*2.5) + t_follow*v_ego + 6) - v_lead^2/(2*2.5), and at
v_ego = 20 m/s, v_lead = 15 m/s, t_follow = 1.45 it equals exactly 70 m. -/
theorem desired_follow_distance_formula_and_scenario :
    (∀ v_ego v_lead t_follow : ℚ,
      desired_follow_distance v_ego v_lead t_follow =
        (v_ego ^ 2 / (2 * (5/2)) + t_follow * v_ego + 6) - v_lead ^ 2 / (2 * (5/2)))
    ∧ desired_follow_distance 20 15 (29/20) = 70 := by
  constructor
  · intro v_ego v_lead t_follow
    simp [desired_follow_distance, get_safe_obstacle_distance,
      get_stopped_equivalence_factor, COMFORT_BRAKE, STOP_DISTANCE]
  · norm_num [desired_follow_distance, get_safe_obstacle_distance,
      get_stopped_equivalence_factor, COMFORT_BRAKE, STOP_DISTANCE]

/-- dynamic_lead_pullaway_distance_cost: the pullaway distance-cost shaper.
pullaway_max_factor is first clamped to min(1.3, pullaway_max_factor); if
gap_excess <= 0 or speed_diff <= 0 the base cost is returned unchanged,
otherwise the base cost is scaled by
np.clip(1 + min(gap_excess/dist_margin, speed_diff/speed_margin) * (pmf - 1), 1, pmf). -/
def dynamic_lead_pullaway_distance_cost
    (x_ego_i v_ego_i x_lead_i v_lead_i t_follow_i base_cost
     pullaway_dist_margin pullaway_speed_margin pullaway_max_factor : ℚ) : ℚ :=
  let pmf := min (13/10) pullaway_max_factor
  let desired_dist := desired_follow_distance v_ego_i v_lead_i t_follow_i
  let actual_gap := x_lead_i - x_ego_i
  let gap_excess := actual_gap - desired_dist
  let speed_diff := v_lead_i - v_ego_i
  if gap_excess ≤ 0 ∨ speed_diff ≤ 0 then base_cost
  else
    let z_dist := gap_excess / pullaway_dist_margin
    let z_speed := speed_diff / pullaway_speed_margin
    let z := min z_dist z_speed
    let factor := npclip (1 + z * (pmf - 1)) 1 pmf
    base_cost * factor

/-- Claim C8: the pullaway cost returns exactly base_cost whenever
gap_excess <= 0 or the lead is not faster than ego, and for base_cost >= 0
its result never exceeds 1.3 * base_cost regardless of the configured
pullaway_max_factor ceiling. -/
theorem dynamic_lead_pullaway_distance_cost_base_and_cap
    (x_ego_i v_ego_i x_lead_i v_lead_i t_follow_i base_cost dm sm pmf : ℚ) :
    (((x_lead_i - x_ego_i) - desired_follow_distance v_ego_i v_lead_i t_follow_i ≤ 0
        ∨ v_lead_i - v_ego_i ≤ 0) →
      dynamic_lead_pullaway_distance_cost
        x_ego_i v_ego_i x_lead_i v_lead_i t_follow_i base_cost dm sm pmf = base_cost)
    ∧ (0 ≤ base_cost →
      dynamic_lead_pullaway_distance_cost
        x_ego_i v_ego_i x_lead_i v_lead_i t_follow_i base_cost dm sm pmf
        ≤ (13/10) * base_cost) := by
  constructor
  · intro h
    simp only [dynamic_lead_pullaway_distance_cost]
    rw [if_pos h]
  · intro hb
    simp only [dynamic_lead_pullaway_distance_cost]
    by_cases h : (x_lead_i - x_ego_i) - desired_follow_distance v_ego_i v_lead_i t_follow_i ≤ 0
        ∨ v_lead_i - v_ego_i ≤ 0
    · rw [if_pos h]
      nlinarith
    · rw [if_neg h]
      have hfac : npclip
          (1 + min ((x_lead_i - x_ego_i - desired_follow_distance v_ego_i v_lead_i t_follow_i) / dm)
                ((v_lead_i - v_ego_i) / sm) * (min (13/10) pmf - 1))
          1 (min (13/10) pmf) ≤ 13/10 := by
        calc npclip _ 1 (min (13/10) pmf) ≤ min (13/10) pmf := min_le_right _ _
          _ ≤ 13/10 := min_le_left _ _
      calc base_cost * npclip _ 1 (min (13/10) pmf)
          ≤ base_cost * (13/10) := by
            exact mul_le_mul_of_nonneg_left hfac hb
        _ = (13/10) * base_cost := by ring

/-- Witness for C8 at a concrete input: ego at 0 m with speed 10 m/s,
lead at 20 m with speed 8 m/s (lead slower, so the base branch applies),
base cost 3. -/
theorem dynamic_lead_pullaway_distance_cost_base_and_cap_witness :
    dynamic_lead_pullaway_distance_cost 0 10 20 8 (29/20) 3 5 2 2 = 3
    ∧ dynamic_lead_pullaway_distance_cost 0 10 20 8 (29/20) 3 5 2 2 ≤ (13/10) * 3 := by
  refine ⟨(dynamic_lead_pullaway_distance_cost_base_and_cap 0 10 20 8 (29/20) 3 5 2 2).1 ?_,
    (dynamic_lead_pullaway_distance_cost_base_and_cap 0 10 20 8 (29/20) 3 5 2 2).2 ?_⟩
  · right
    norm_num
  · norm_num

/-- dynamic_lead_constraint_weight: soft lead-constraint penalty shaper.
The exponential is an explicit parameter rexp; the max_penalty argument is
accepted (mirroring the Python signature) but never read: the upper end of
the mapping range is the hard-coded safe_upper = 10000. -/
def dynamic_lead_constraint_weight (rexp : ℚ → ℚ)
    (x_obstacle_i x_ego_i v_ego_i v_lead_i t_follow_i
     min_penalty max_penalty dist_margin speed_margin : ℚ) : ℚ :=
  let desired_dist := get_safe_obstacle_distance v_ego_i t_follow_i
  let actual_gap := x_obstacle_i - x_ego_i
  let gap_error := desired_dist - actual_gap
  let closing_speed := v_ego_i - v_lead_i
  let z := gap_error / dist_margin + closing_speed / speed_margin
  let z_scaled := (3/2) * (z - 1/2)
  let logistic_val := 1 / (1 + rexp (-z_scaled))
  let safe_upper : ℚ := 10000
  let _ := max_penalty
  min_penalty + logistic_val * (safe_upper - min_penalty)

/-- Claim C10: for min_penalty < 10000 (and a positive exponential), the
returned penalty lies strictly between min_penalty and 10000, and the result
does not depend on the max_penalty argument. -/
theorem dynamic_lead_constraint_weight_bounds_and_max_penalty_unused
    (rexp : ℚ → ℚ) (xo xe ve vl tf minp maxp maxp' dm sm : ℚ)
    (hpos : ∀ y : ℚ, 0 < rexp y) (hmin : minp < 10000) :
    (minp < dynamic_lead_constraint_weight rexp xo xe ve vl tf minp maxp dm sm
      ∧ dynamic_lead_constraint_weight rexp xo xe ve vl tf minp maxp dm sm < 10000)
    ∧ dynamic_lead_constraint_weight rexp xo xe ve vl tf minp maxp dm sm
      = dynamic_lead_constraint_weight rexp xo xe ve vl tf minp maxp' dm sm := by
  have he : 0 < rexp (-((3/2) *
      ((get_safe_obstacle_distance ve tf - (xo - xe)) / dm + (ve - vl) / sm - 1/2))) :=
    hpos _
  set e := rexp (-((3/2) *
      ((get_safe_obstacle_distance ve tf - (xo - xe)) / dm + (ve - vl) / sm - 1/2))) with he_def
  have h1e : (1:ℚ) < 1 + e := by linarith
  have hlv_pos : 0 < 1 / (1 + e) := by positivity
  have hlv_lt : 1 / (1 + e) < 1 := by
    rw [div_lt_one (by linarith)]
    exact h1e
  have hgap : (0:ℚ) < 10000 - minp := by linarith
  refine ⟨⟨?_, ?_⟩, rfl⟩
  · have : 0 < 1 / (1 + e) * (10000 - minp) := mul_pos hlv_pos hgap
    simp only [dynamic_lead_constraint_weight, ← he_def]
    linarith
  · have : 1 / (1 + e) * (10000 - minp) < 1 * (10000 - minp) :=
      mul_lt_mul_of_pos_right hlv_lt hgap
    simp only [dynamic_lead_constraint_weight, ← he_def]
    linarith

/-- Witness for C10 at a concrete input with rexp = const 1: obstacle at
50 m, ego at 0 m / 10 m/s, lead 8 m/s, min_penalty 5 and two different
max_penalty values (10^6 and 7). -/
theorem dynamic_lead_constraint_weight_bounds_witness :
    ((5:ℚ) < dynamic_lead_constraint_weight (fun _ => 1) 50 0 10 8 (29/20) 5 1000000 2 2
      ∧ dynamic_lead_constraint_weight (fun _ => 1) 50 0 10 8 (29/20) 5 1000000 2 2 < 10000)
    ∧ dynamic_lead_constraint_weight (fun _ => 1) 50 0 10 8 (29/20) 5 1000000 2 2
      = dynamic_lead_constraint_weight (fun _ => 1) 50 0 10 8 (29/20) 5 7 2 2 :=
  dynamic_lead_constraint_weight_bounds_and_max_penalty_unused
    (fun _ => 1) 50 0 10 8 (29/20) 5 1000000 7 2 2
    (fun _ => by norm_num) (by norm_num)

/-- extrapolate_lead(x_lead, v_lead, a_lead, a_lead_tau): the acceleration
decays as a_lead * exp(-a_lead_tau * T_IDXS^2 / 2); speeds are the clipped
cumulative sum v_lead + cumsum(T_DIFFS * a_traj) clipped into [0, 1e8];
positions are x_lead + cumsum(T_DIFFS * v_traj).  Returns the (position,
speed) pair at each horizon index.  rexp stands for np.exp. -/
def extrapolate_lead (rexp : ℚ → ℚ) (x_lead v_lead a_lead a_lead_tau : ℚ)
    (i : ℕ) : ℚ × ℚ :=
  let a_lead_traj : ℕ → ℚ := fun k => a_lead * rexp (-a_lead_tau * (T_IDXS k) ^ 2 / 2)
  let v_lead_traj : ℕ → ℚ := fun k =>
    npclip (v_lead + cumsum (fun j => T_DIFFS j * a_lead_traj j) k) 0 100000000
  let x_lead_traj : ℕ → ℚ := fun k => x_lead + cumsum (fun j => T_DIFFS j * v_lead_traj j) k
  (x_lead_traj i, v_lead_traj i)

/-- Claim C9: for every input (and every interpretation of exp), the speed
samples of extrapolate_lead lie in [0, 1e8], the position trajectory starts
at x_lead, and positions are monotonically non-decreasing in the horizon
index. -/
theorem extrapolate_lead_speed_bounds_and_position_mono
    (rexp : ℚ → ℚ) (x_lead v_lead a_lead a_lead_tau : ℚ) :
    (∀ i : ℕ, 0 ≤ (extrapolate_lead rexp x_lead v_lead a_lead a_lead_tau i).2
        ∧ (extrapolate_lead rexp x_lead v_lead a_lead a_lead_tau i).2 ≤ 100000000)
    ∧ (extrapolate_lead rexp x_lead v_lead a_lead a_lead_tau 0).1 = x_lead
    ∧ (∀ i j : ℕ, i ≤ j →
        (extrapolate_lead rexp x_lead v_lead a_lead a_lead_tau i).1
          ≤ (extrapolate_lead rexp x_lead v_lead a_lead a_lead_tau j).1) := by
  have hv_nonneg : ∀ i : ℕ,
      0 ≤ (extrapolate_lead rexp x_lead v_lead a_lead a_lead_tau i).2 := by
    intro i
    simp only [extrapolate_lead, npclip]
    exact le_min (le_max_right _ _) (by norm_num)
  refine ⟨fun i => ⟨hv_nonneg i, ?_⟩, ?_, ?_⟩
  · simp only [extrapolate_lead, npclip]
    exact min_le_right _ _
  · simp only [extrapolate_lead]
    rw [cumsum]
    have : T_DIFFS 0 = 0 := by simp [T_DIFFS, T_IDXS]
    simp [this]
  · have hmono : Monotone (fun i =>
        (extrapolate_lead rexp x_lead v_lead a_lead a_lead_tau i).1) := by
      apply monotone_nat_of_le_succ
      intro k
      simp only [extrapolate_lead]
      rw [cumsum]
      have h1 : 0 ≤ T_DIFFS (k + 1) := T_DIFFS_nonneg (k + 1)
      have h2 : 0 ≤ npclip
          (v_lead + cumsum (fun j => T_DIFFS j *
            (a_lead * rexp (-a_lead_tau * (T_IDXS j) ^ 2 / 2))) (k + 1)) 0 100000000 := by
        simp only [npclip]
        exact le_min (le_max_right _ _) (by norm_num)
      nlinarith [mul_nonneg h1 h2]
    intro i j hij
    exact hmono hij

/-- Witness for C9 at a concrete input: a lead 50 m ahead at 5 m/s with
1 m/s^2 acceleration and tau = 1.5 (exp interpreted as the constant 1):
the position trajectory starts at 50 and is non-decreasing from sample 3
to sample 7, and the first speed sample is within bounds. -/
theorem extrapolate_lead_speed_bounds_and_position_mono_witness :
    (0 ≤ (extrapolate_lead (fun _ => 1) 50 5 1 (3/2) 0).2
      ∧ (extrapolate_lead (fun _ => 1) 50 5 1 (3/2) 0).2 ≤ 100000000)
    ∧ (extrapolate_lead (fun _ => 1) 50 5 1 (3/2) 0).1 = 50
    ∧ (extrapolate_lead (fun _ => 1) 50 5 1 (3/2) 3).1
        ≤ (extrapolate_lead (fun _ => 1) 50 5 1 (3/2) 7).1 :=
  ⟨(extrapolate_lead_speed_bounds_and_position_mono (fun _ => 1) 50 5 1 (3/2)).1 0,
   (extrapolate_lead_speed_bounds_and_position_mono (fun _ => 1) 50 5 1 (3/2)).2.1,
   (extrapolate_lead_speed_bounds_and_position_mono (fun _ => 1) 50 5 1 (3/2)).2.2 3 7
     (by norm_num)⟩

/-- The obstacle-source tags, in the order of the Python list
SOURCES = ['lead0', 'lead1', 'cruise', 'e2e']. -/
inductive Source
  | lead0
  | lead1
  | cruise
  | e2e
deriving DecidableEq

/-- SOURCES = ['lead0', 'lead1', 'cruise', 'e2e'] -/
def SOURCES : List Source := [Source.lead0, Source.lead1, Source.cruise, Source.e2e]

/-- np.argmin on a list: index of the first occurrence of the minimum. -/
def npArgminAux : List ℚ → ℕ → ℕ → ℚ → ℕ
  | [], _, best, _ => best
  | x :: xs, idx, best, bestVal =>
    if x < bestVal then npArgminAux xs (idx + 1) idx x
    else npArgminAux xs (idx + 1) best bestVal

/-- np.argmin of a list (0 on the empty list, which numpy rejects). -/
def npArgmin : List ℚ → ℕ
  | [] => 0
  | x :: xs => npArgminAux xs 1 0 x

/-- np.min over a list (row of a column_stack). -/
def npMinList : List ℚ → ℚ
  | [] => 0
  | x :: xs => xs.foldl min x

theorem npMinList_three (a b c : ℚ) : npMinList [a, b, c] = min a (min b c) := by
  simp [npMinList, min_assoc]

theorem npMinList_two (a b : ℚ) : npMinList [a, b] = min a b := by
  simp [npMinList]

/-- lead_obstacle = lead_xv[:,0] + get_stopped_equivalence_factor(lead_xv[:,1]). -/
def leadObstacle (xv : ℕ → ℚ × ℚ) (i : ℕ) : ℚ :=
  (xv i).1 + get_stopped_equivalence_factor (xv i).2

/-- v_cruise_clipped = np.clip(v_cruise, v_ego + T_IDXS*cruise_min_a*1.05,
                                         v_ego + T_IDXS*max_a*1.05). -/
def vCruiseClipped (v_ego v_cruise cruise_min_a max_a : ℚ) (i : ℕ) : ℚ :=
  npclip v_cruise (v_ego + T_IDXS i * cruise_min_a * (21/20))
    (v_ego + T_IDXS i * max_a * (21/20))

/-- cruise_obstacle = np.cumsum(T_DIFFS * v_cruise_clipped)
                      + get_safe_obstacle_distance(v_cruise_clipped, t_follow). -/
def cruiseObstacle (v_ego v_cruise cruise_min_a max_a t_follow : ℚ) (i : ℕ) : ℚ :=
  cumsum (fun k => T_DIFFS k * vCruiseClipped v_ego v_cruise cruise_min_a max_a k) i
    + get_safe_obstacle_distance (vCruiseClipped v_ego v_cruise cruise_min_a max_a i) t_follow

/-- The ACC-mode obstacle slice of LongitudinalMpc.update: builds the two
lead obstacles and the synthetic cruise obstacle, takes the per-stage
np.min over the column stack as params[:,2], and sets
source = SOURCES[np.argmin(x_obstacles[0])]. -/
def accObstacleUpdate (xv0 xv1 : ℕ → ℚ × ℚ)
    (v_ego v_cruise cruise_min_a max_a t_follow : ℚ) : (ℕ → ℚ) × Source :=
  let l0 := leadObstacle xv0
  let l1 := leadObstacle xv1
  let cr := cruiseObstacle v_ego v_cruise cruise_min_a max_a t_follow
  (fun i => npMinList [l0 i, l1 i, cr i],
   SOURCES.getD (npArgmin [l0 0, l1 0, cr 0]) Source.e2e)

/-- The blended-mode obstacle parameter: per-stage np.min over the two
lead obstacles only. -/
def blendedObstacleParam (xv0 xv1 : ℕ → ℚ × ℚ) (i : ℕ) : ℚ :=
  npMinList [leadObstacle xv0 i, leadObstacle xv1 i]

/-- First-step obstacle position of the candidate named by a source tag
(0 for e2e, which names no obstacle candidate). -/
def sourceFirstObstacle (src : Source) (l0 l1 cr : ℚ) : ℚ :=
  match src with
  | Source.lead0 => l0
  | Source.lead1 => l1
  | Source.cruise => cr
  | Source.e2e => 0

theorem source_argmin_three (a b c : ℚ) :
    SOURCES.getD (npArgmin [a, b, c]) Source.e2e ≠ Source.e2e
    ∧ sourceFirstObstacle (SOURCES.getD (npArgmin [a, b, c]) Source.e2e) a b c
        = min a (min b c) := by
  simp only [npArgmin, npArgminAux]
  by_cases h1 : b < a
  · by_cases h2 : c < b
    · rw [if_pos h1, if_pos h2]
      refine ⟨by simp [SOURCES], ?_⟩
      simp only [SOURCES, List.getD, sourceFirstObstacle]
      rw [min_eq_right (le_of_lt h2), min_eq_right (le_of_lt (lt_trans h2 h1))]
      simp [sourceFirstObstacle]
    · rw [if_pos h1, if_neg h2]
      refine ⟨by simp [SOURCES], ?_⟩
      simp only [SOURCES, List.getD, sourceFirstObstacle]
      rw [min_eq_left (not_lt.mp h2), min_eq_right (le_of_lt h1)]
      simp [sourceFirstObstacle]
  · by_cases h3 : c < a
    · rw [if_neg h1, if_pos h3]
      refine ⟨by simp [SOURCES], ?_⟩
      simp only [SOURCES, List.getD, sourceFirstObstacle]
      rw [min_eq_right (le_of_lt (lt_of_lt_of_le h3 (not_lt.mp h1))), min_eq_right (le_of_lt h3)]
      simp [sourceFirstObstacle]
    · rw [if_neg h1, if_neg h3]
      refine ⟨by simp [SOURCES], ?_⟩
      simp only [SOURCES, List.getD, sourceFirstObstacle]
      rcases le_total b c with hbc | hbc
      · rw [min_eq_left hbc, min_eq_left (not_lt.mp h1)]
        simp [sourceFirstObstacle]
      · rw [min_eq_right hbc, min_eq_left (not_lt.mp h3)]
        simp [sourceFirstObstacle]

/-- Claim C2: on every update the per-stage obstacle parameter is the
element-wise minimum of the active candidates (lead0, lead1 and the cruise
obstacle in ACC mode; lead0 and lead1 in blended mode), and in ACC mode
the reported source is a candidate whose first-step position attains the
minimum (and is never e2e). -/
theorem obstacle_param_is_min_and_source_is_argmin
    (xv0 xv1 : ℕ → ℚ × ℚ) (v_ego v_cruise cruise_min_a max_a t_follow : ℚ) :
    (∀ i : ℕ,
      (accObstacleUpdate xv0 xv1 v_ego v_cruise cruise_min_a max_a t_follow).1 i
        = min (leadObstacle xv0 i)
            (min (leadObstacle xv1 i)
              (cruiseObstacle v_ego v_cruise cruise_min_a max_a t_follow i))
      ∧ blendedObstacleParam xv0 xv1 i
        = min (leadObstacle xv0 i) (leadObstacle xv1 i))
    ∧ (accObstacleUpdate xv0 xv1 v_ego v_cruise cruise_min_a max_a t_follow).2 ≠ Source.e2e
    ∧ sourceFirstObstacle
        (accObstacleUpdate xv0 xv1 v_ego v_cruise cruise_min_a max_a t_follow).2
        (leadObstacle xv0 0) (leadObstacle xv1 0)
        (cruiseObstacle v_ego v_cruise cruise_min_a max_a t_follow 0)
      = (accObstacleUpdate xv0 xv1 v_ego v_cruise cruise_min_a max_a t_follow).1 0 := by
  refine ⟨fun i => ⟨?_, ?_⟩, ?_, ?_⟩
  · simp [accObstacleUpdate, npMinList_three]
  · simp [blendedObstacleParam, npMinList_two]
  · simpa [accObstacleUpdate] using
      (source_argmin_three (leadObstacle xv0 0) (leadObstacle xv1 0)
        (cruiseObstacle v_ego v_cruise cruise_min_a max_a t_follow 0)).1
  · have h := (source_argmin_three (leadObstacle xv0 0) (leadObstacle xv1 0)
      (cruiseObstacle v_ego v_cruise cruise_min_a max_a t_follow 0)).2
    simpa [accObstacleUpdate, npMinList_three] using h

/-- Witness for C2 at a concrete input: leads at 10 m and 20 m travelling
5 m/s, ego at 10 m/s with cruise request 30 m/s and accel bounds
[-1.2, 1.2]: the reported source is a real candidate (never e2e) and its
first-step position equals the per-stage minimum parameter at step 0. -/
theorem obstacle_param_is_min_and_source_is_argmin_witness :
    (accObstacleUpdate (fun _ => (10, 5)) (fun _ => (20, 5)) 10 30 (-6/5) (6/5) (29/20)).2
      ≠ Source.e2e
    ∧ sourceFirstObstacle
        (accObstacleUpdate (fun _ => (10, 5)) (fun _ => (20, 5)) 10 30 (-6/5) (6/5) (29/20)).2
        (leadObstacle (fun _ => (10, 5)) 0) (leadObstacle (fun _ => (20, 5)) 0)
        (cruiseObstacle 10 30 (-6/5) (6/5) (29/20) 0)
      = (accObstacleUpdate (fun _ => (10, 5)) (fun _ => (20, 5)) 10 30 (-6/5) (6/5) (29/20)).1 0 :=
  ⟨(obstacle_param_is_min_and_source_is_argmin
      (fun _ => (10, 5)) (fun _ => (20, 5)) 10 30 (-6/5) (6/5) (29/20)).2.1,
   (obstacle_param_is_min_and_source_is_argmin
      (fun _ => (10, 5)) (fun _ => (20, 5)) 10 30 (-6/5) (6/5) (29/20)).2.2⟩

/-- Result of one blocking solver invocation (the injected solver
capability): integer status (0 = success), per-stage solved state
(position, speed, acceleration), per-stage solved control (jerk), and
timing telemetry. -/
structure SolveResult where
  status : ℤ
  x : ℕ → ℚ × ℚ × ℚ
  u : ℕ → ℚ
  time_tot : ℚ
  time_qp : ℚ
  time_lin : ℚ
  time_sim : ℚ

/-- The MPCState fields persisted across ticks by LongitudinalMpc
(solver-side buffers such as yref and the cost matrices live in the
injected solver and are outside this state). -/
structure MPCState where
  x_sol : ℕ → ℚ × ℚ × ℚ
  u_sol : ℕ → ℚ
  v_solution : ℕ → ℚ
  a_solution : ℕ → ℚ
  j_solution : ℕ → ℚ
  prev_a : ℕ → ℚ
  solution_status : ℤ
  last_cloudlog_t : ℚ
  status : Bool
  crash_cnt : ℚ
  solve_time : ℚ
  time_qp_solution : ℚ
  time_linearization : ℚ
  time_integrator : ℚ
  x0 : ℚ × ℚ × ℚ

/-- The state produced by LongitudinalMpc.reset(): every persisted field is
zeroed (trajectories, prev_a, solver status, log timestamp, crash counter,
timings, initial condition). -/
def mpcResetState : MPCState :=
  { x_sol := fun _ => (0, 0, 0)
    u_sol := fun _ => 0
    v_solution := fun _ => 0
    a_solution := fun _ => 0
    j_solution := fun _ => 0
    prev_a := fun _ => 0
    solution_status := 0
    last_cloudlog_t := 0
    status := false
    crash_cnt := 0
    solve_time := 0
    time_qp_solution := 0
    time_linearization := 0
    time_integrator := 0
    x0 := (0, 0, 0) }

/-- LongitudinalMpc.reset(): independent of the incoming state, every
persisted field is zeroed (the method also reseeds the solver, an external
effect). -/
def mpcReset (_st : MPCState) : MPCState := mpcResetState

/-- One linear-interpolation step of np.interp on an increasing grid:
walks down from segment k to find the highest node at or below x. -/
def npInterpAux (xp fp : ℕ → ℚ) (x : ℚ) : ℕ → ℚ
  | 0 => fp 0
  | (k + 1) =>
    if xp k ≤ x then fp k + (fp (k + 1) - fp k) * (x - xp k) / (xp (k + 1) - xp k)
    else npInterpAux xp fp x k

/-- np.interp(x, xp, fp) on the nodes 0..n of a strictly increasing grid:
clamps to fp n above the grid, to fp 0 below it, and interpolates linearly
inside. -/
def npInterp (xp fp : ℕ → ℚ) (n : ℕ) (x : ℚ) : ℚ :=
  if xp n ≤ x then fp n else npInterpAux xp fp x n

/-- LongitudinalMpc.run() after the solver call, with the blocking solve
abstracted as the injected result res and time.monotonic() as t.  The
solution and telemetry are extracted, prev_a is re-interpolated on the
grid shifted by one tick, and on a nonzero status a warning is emitted
when t exceeds the stored log time by 5 s and the state is fully reset.
Returns the new state and whether the warning was logged. -/
def mpcRun (st : MPCState) (res : SolveResult) (t dt : ℚ) : MPCState × Bool :=
  let st1 : MPCState :=
    { st with
      solution_status := res.status
      x_sol := res.x
      u_sol := res.u
      v_solution := fun i => (res.x i).2.1
      a_solution := fun i => (res.x i).2.2
      j_solution := res.u
      prev_a := fun i => npInterp T_IDXS (fun k => (res.x k).2.2) 12 (T_IDXS i + dt)
      solve_time := res.time_tot
      time_qp_solution := res.time_qp
      time_linearization := res.time_lin
      time_integrator := res.time_sim }
  if res.status ≠ 0 then
    let logged := decide (st.last_cloudlog_t + 5 < t)
    let st2 := if logged then { st1 with last_cloudlog_t := t } else st1
    (mpcReset st2, logged)
  else (st1, false)

/-- Claim C1 (amended): a nonzero solver status always triggers a full
MPCState reset before the next tick, so that cycle's effective output is
the neutral/zero trajectory (position, speed, acceleration and jerk
solutions all zero) with the solver status back to zero; the divergence
warning is emitted exactly when the current time exceeds the stored
last-log time by more than 5 s (a bound the reset immediately clobbers by
zeroing that timestamp). -/
theorem mpc_nonzero_status_full_reset
    (st : MPCState) (res : SolveResult) (t dt : ℚ) (h : res.status ≠ 0) :
    (mpcRun st res t dt).1 = mpcResetState
    ∧ (∀ i : ℕ,
        (mpcRun st res t dt).1.v_solution i = 0
        ∧ (mpcRun st res t dt).1.a_solution i = 0
        ∧ (mpcRun st res t dt).1.j_solution i = 0
        ∧ ((mpcRun st res t dt).1.x_sol i).1 = 0)
    ∧ (mpcRun st res t dt).1.solution_status = 0
    ∧ ((mpcRun st res t dt).2 = true ↔ st.last_cloudlog_t + 5 < t) := by
  have h1 : (mpcRun st res t dt).1 = mpcResetState := by
    simp [mpcRun, h, mpcReset]
  refine ⟨h1, fun i => ?_, ?_, ?_⟩
  · rw [h1]
    simp [mpcResetState]
  · rw [h1]
    simp [mpcResetState]
  · simp [mpcRun, h]

/-- A concrete solver failure: status 1, all-zero solution and telemetry. -/
def divergedSolve : SolveResult :=
  { status := 1
    x := fun _ => (0, 0, 0)
    u := fun _ => 0
    time_tot := 0
    time_qp := 0
    time_lin := 0
    time_sim := 0 }

/-- Witness for C1 (amended) at a concrete input: a failing solve at
t = 100 s from a freshly reset state fully resets the state and logs. -/
theorem mpc_nonzero_status_full_reset_witness :
    (mpcRun mpcResetState divergedSolve 100 (1/20)).1 = mpcResetState
    ∧ (mpcRun mpcResetState divergedSolve 100 (1/20)).2 = true := by
  have h := mpc_nonzero_status_full_reset mpcResetState divergedSolve 100 (1/20)
    (by norm_num [divergedSolve])
  exact ⟨h.1, h.2.2.2.mpr (by norm_num [mpcResetState])⟩

/-- Counterexample for C1 as stated: the divergence warning is NOT limited
to once per 5 seconds.  Two consecutive failing solves one tick (0.05 s)
apart each log a warning, because the full reset zeroes last_cloudlog_t. -/
theorem mpc_warning_logged_twice_within_five_seconds :
    (mpcRun mpcResetState divergedSolve 100 (1/20)).2 = true
    ∧ (mpcRun (mpcRun mpcResetState divergedSolve 100 (1/20)).1 divergedSolve
        (100 + 1/20) (1/20)).2 = true
    ∧ (100 + 1/20 : ℚ) - 100 < 5 := by
  refine ⟨?_, ?_, by norm_num⟩
  · simp [mpcRun, divergedSolve, mpcResetState, mpcReset]
    norm_num
  · simp [mpcRun, divergedSolve, mpcResetState, mpcReset]
    norm_num

/-- any((lead_obstacle - get_safe_obstacle_distance(x_sol[:,1], t_follow))
         - x_sol[:,0] < 0.0) over the 13 horizon stages. -/
def anyLeadViolation (lead_obs : ℕ → ℚ) (x_sol : ℕ → ℚ × ℚ × ℚ) (t_follow : ℚ) : Bool :=
  (List.range 13).any fun i =>
    decide (lead_obs i - get_safe_obstacle_distance (x_sol i).2.1 t_follow - (x_sol i).1 < 0)

/-- The blended-mode post-solve source re-attribution of
LongitudinalMpc.update: relabel to lead0 on a lead0 safe-gap violation,
then relabel to lead1 when lead1's safe-gap constraint is violated AND the
raw first-step difference lead_1_obstacle[0] - lead_0_obstacle[0] is
truthy, i.e. nonzero (the Python gate is a float used as a boolean, not a
farther-than comparison). -/
def blendedSourceReattribution (src : Source) (lead0_obs lead1_obs : ℕ → ℚ)
    (x_sol : ℕ → ℚ × ℚ × ℚ) (t_follow : ℚ) : Source :=
  let src1 := if anyLeadViolation lead0_obs x_sol t_follow = true then Source.lead0 else src
  if anyLeadViolation lead1_obs x_sol t_follow = true ∧ lead1_obs 0 - lead0_obs 0 ≠ 0 then
    Source.lead1
  else src1

theorem anyLeadViolation_of (lead_obs : ℕ → ℚ) (x_sol : ℕ → ℚ × ℚ × ℚ) (t_follow : ℚ)
    (i : ℕ) (hi : i < 13)
    (h : lead_obs i - get_safe_obstacle_distance (x_sol i).2.1 t_follow - (x_sol i).1 < 0) :
    anyLeadViolation lead_obs x_sol t_follow = true := by
  simp only [anyLeadViolation, List.any_eq_true, List.mem_range, decide_eq_true_eq]
  exact ⟨i, hi, h⟩

/-- Counterexample for C5 as stated: with lead1 STRICTLY CLOSER than lead0
at the first step (lead1 obstacle at 3 m, lead0 obstacle at 100 m, so
lead1 is not farther than lead0), a realized lead1 safe-gap violation
still relabels the source to lead1, because the code gates on the raw
difference being truthy (nonzero), not on lead1 being farther. -/
theorem blended_reattribution_fires_when_lead1_closer :
    blendedSourceReattribution Source.cruise (fun _ => 100) (fun _ => 3)
      (fun _ => (0, 0, 0)) 1 = Source.lead1
    ∧ ¬ ((100:ℚ) < 3) := by
  have hv : anyLeadViolation (fun _ => (3:ℚ)) (fun _ => ((0:ℚ), (0:ℚ), (0:ℚ))) 1 = true :=
    anyLeadViolation_of _ _ _ 0 (by norm_num)
      (by norm_num [get_safe_obstacle_distance, COMFORT_BRAKE, STOP_DISTANCE])
  constructor
  · simp only [blendedSourceReattribution]
    rw [if_pos ⟨hv, by norm_num⟩]
  · norm_num

/-- Claim C5 (amended): in blended mode the source is relabelled to lead1
exactly when the realized solution violates lead1's safe-gap constraint at
some horizon step AND lead1's first-step obstacle position differs from
lead0's (nonzero raw difference — not a farther-than comparison), given
the pre-attribution source is e2e or cruise. -/
theorem blended_reattribution_to_lead1_iff
    (src : Source) (lead0_obs lead1_obs : ℕ → ℚ) (x_sol : ℕ → ℚ × ℚ × ℚ) (t_follow : ℚ)
    (hsrc : src = Source.e2e ∨ src = Source.cruise) :
    blendedSourceReattribution src lead0_obs lead1_obs x_sol t_follow = Source.lead1
      ↔ (anyLeadViolation lead1_obs x_sol t_follow = true
          ∧ lead1_obs 0 - lead0_obs 0 ≠ 0) := by
  unfold blendedSourceReattribution
  by_cases h : anyLeadViolation lead1_obs x_sol t_follow = true
      ∧ lead1_obs 0 - lead0_obs 0 ≠ 0
  · rw [if_pos h]
    simpa using h
  · rw [if_neg h]
    constructor
    · intro hc
      exfalso
      by_cases h0 : anyLeadViolation lead0_obs x_sol t_follow = true
      · rw [if_pos h0] at hc
        exact Source.noConfusion hc
      · rw [if_neg h0] at hc
        rcases hsrc with h2 | h2 <;> rw [h2] at hc <;> exact Source.noConfusion hc
    · intro hc
      exact absurd hc h

/-- Witness for C5 (amended) at a concrete input: lead1 obstacle at 3 m
violating its safe gap with a nonzero first-step difference from lead0
(at 50 m) relabels the source from e2e to lead1. -/
theorem blended_reattribution_to_lead1_iff_witness :
    blendedSourceReattribution Source.e2e (fun _ => 50) (fun _ => 3)
      (fun _ => (0, 0, 0)) 1 = Source.lead1 :=
  (blended_reattribution_to_lead1_iff Source.e2e (fun _ => 50) (fun _ => 3)
    (fun _ => (0, 0, 0)) 1 (Or.inl rfl)).mpr
    ⟨anyLeadViolation_of _ _ _ 0 (by norm_num)
      (by norm_num [get_safe_obstacle_distance, COMFORT_BRAKE, STOP_DISTANCE]),
     by norm_num⟩

/-- CRUISING_SPEED as redefined in FrogPilotVCruise: 6.7 m/s (~15 mph). -/
def CRUISING_SPEED : ℚ := 67 / 10

/-- Modelled from the spec: PLANNER_TIME, the fixed planning time dividing
the remaining tracked stopping distance in the forced-stop ramp.  The
constant lives in frogpilot_variables, which is not under src/; the spec
fixes only that it is "a fixed planning time", and the planning horizon
spans 10 s, so it is modelled as 10. -/
def PLANNER_TIME : ℚ := 10

/-- Python float floor division a // b. -/
def ratFloorDiv (a b : ℚ) : ℚ := (⌊a / b⌋ : ℤ)

/-- One candidate of the final arbitration:
`t if t > CRUISING_SPEED else v_cruise` (a candidate at or below the
cruise floor is treated as inactive). -/
def arbTarget (t v_cruise : ℚ) : ℚ :=
  if CRUISING_SPEED < t then t else v_cruise

/-- The final-target selection of FrogPilotVCruise.update: hard forced
standstill (stop sentinel -1), forced-stop ramp (tracked length shrinks by
v_ego*dt, command = tracked // PLANNER_TIME clamped by v_cruise), or the
arbitration minimum over the three advisor targets.  Returns the new
tracked_model_length and the returned v_cruise. -/
def vcruiseStopTick (force_standstill standstill override_force_stop enabled
    force_stop_enabled : Bool)
    (tracked_model_length model_length v_ego dt planner_time v_cruise
     mtsc_target slc_target vtsc_target : ℚ) : ℚ × ℚ :=
  if (force_standstill && standstill && !override_force_stop && enabled) = true then
    (tracked_model_length, -1)
  else if (force_stop_enabled && !override_force_stop) = true then
    let tracked2 := max (tracked_model_length - v_ego * dt) 0
    (tracked2, min (ratFloorDiv tracked2 planner_time) v_cruise)
  else
    (model_length,
      min (arbTarget mtsc_target v_cruise)
        (min (arbTarget slc_target v_cruise) (arbTarget vtsc_target v_cruise)))

/-- Counterexample for C4 as stated: with the forced stop active
(tracked length 95 m, planning time 10 s, requested cruise 30 m/s) the
commanded speed is the FLOOR 9, not the exact quotient 95/10 = 9.5; and on
the next tick, with 0.05 m of tracked distance consumed (v_ego = 1 m/s),
the command stays at 9 instead of strictly decreasing. -/
theorem forced_stop_command_counterexample :
    (vcruiseStopTick false false false true true 95 0 0 (1/20) PLANNER_TIME 30 0 0 0).2 = 9
    ∧ (vcruiseStopTick false false false true true 95 0 0 (1/20) PLANNER_TIME 30 0 0 0).1 = 95
    ∧ (95 : ℚ) / PLANNER_TIME ≠ 9
    ∧ (vcruiseStopTick false false false true true 95 0 1 (1/20) PLANNER_TIME 30 0 0 0).2 = 9
    ∧ (vcruiseStopTick false false false true true 95 0 1 (1/20) PLANNER_TIME 30 0 0 0).1 < 95 := by
  have h1 : (⌊(95:ℚ) / 10⌋ : ℤ) = 9 := by
    rw [Int.floor_eq_iff]
    norm_num
  have h2 : (⌊((95:ℚ) - 1 * (1/20)) / 10⌋ : ℤ) = 9 := by
    rw [Int.floor_eq_iff]
    norm_num
  refine ⟨?_, ?_, ?_, ?_, ?_⟩
  · simp only [vcruiseStopTick, ratFloorDiv, PLANNER_TIME]
    norm_num [h1]
  · simp only [vcruiseStopTick]
    norm_num
  · norm_num [PLANNER_TIME]
  · simp only [vcruiseStopTick, ratFloorDiv, PLANNER_TIME]
    norm_num [h2]
  · simp only [vcruiseStopTick]
    norm_num

/-- Claim C4 (amended): while a forced stop is active (trigger debounced
and no override), the commanded cruise speed equals the FLOOR of the
remaining tracked stopping distance divided by the planning time, clamped
by the requested cruise speed; it never exceeds the requested cruise
speed, never exceeds the exact quotient, and is non-increasing (not
strictly decreasing) tick-over-tick as tracked distance is consumed. -/
theorem forced_stop_command_floor_clamped_monotone
    (ss : Bool) (tracked ml v1 v2 dt pt vc m s v : ℚ)
    (hpt : 0 < pt) (_h1 : 0 ≤ v1 * dt) (h2 : 0 ≤ v2 * dt) :
    (vcruiseStopTick false ss false true true tracked ml v1 dt pt vc m s v).2
      = min (ratFloorDiv
          (vcruiseStopTick false ss false true true tracked ml v1 dt pt vc m s v).1 pt) vc
    ∧ (vcruiseStopTick false ss false true true tracked ml v1 dt pt vc m s v).2 ≤ vc
    ∧ (vcruiseStopTick false ss false true true tracked ml v1 dt pt vc m s v).2
        ≤ (vcruiseStopTick false ss false true true tracked ml v1 dt pt vc m s v).1 / pt
    ∧ (vcruiseStopTick false ss false true true
        (vcruiseStopTick false ss false true true tracked ml v1 dt pt vc m s v).1
        ml v2 dt pt vc m s v).2
      ≤ (vcruiseStopTick false ss false true true tracked ml v1 dt pt vc m s v).2 := by
  have key : ∀ tr ve : ℚ, vcruiseStopTick false ss false true true tr ml ve dt pt vc m s v
      = (max (tr - ve * dt) 0, min (ratFloorDiv (max (tr - ve * dt) 0) pt) vc) := by
    intro tr ve
    simp [vcruiseStopTick]
  simp only [key]
  set r1 := max (tracked - v1 * dt) 0 with hr1
  set r2 := max (r1 - v2 * dt) 0 with hr2
  have hr1_nonneg : 0 ≤ r1 := le_max_right _ _
  have hr2_le : r2 ≤ r1 := by
    rw [hr2]
    exact max_le (by linarith) hr1_nonneg
  refine ⟨trivial, min_le_right _ _, ?_, ?_⟩
  · calc min (ratFloorDiv r1 pt) vc ≤ ratFloorDiv r1 pt := min_le_left _ _
      _ ≤ r1 / pt := Int.floor_le _
  · have hdiv : r2 / pt ≤ r1 / pt := by
      rw [div_le_div_iff₀ hpt hpt]
      exact mul_le_mul_of_nonneg_right hr2_le hpt.le
    have hfl : ratFloorDiv r2 pt ≤ ratFloorDiv r1 pt := by
      simp only [ratFloorDiv]
      exact_mod_cast Int.floor_le_floor hdiv
    exact min_le_min hfl le_rfl

/-- Witness for C4 (amended) at a concrete input: tracked length 95 m,
planning time 10 s, cruise request 30 m/s, two ticks with ego speeds
0 and 1 m/s. -/
theorem forced_stop_command_floor_clamped_monotone_witness :
    (vcruiseStopTick false false false true true 95 0 0 (1/20) 10 30 0 0 0).2
      = min (ratFloorDiv
          (vcruiseStopTick false false false true true 95 0 0 (1/20) 10 30 0 0 0).1 10) 30
    ∧ (vcruiseStopTick false false false true true 95 0 0 (1/20) 10 30 0 0 0).2 ≤ 30
    ∧ (vcruiseStopTick false false false true true 95 0 0 (1/20) 10 30 0 0 0).2
        ≤ (vcruiseStopTick false false false true true 95 0 0 (1/20) 10 30 0 0 0).1 / 10
    ∧ (vcruiseStopTick false false false true true
        (vcruiseStopTick false false false true true 95 0 0 (1/20) 10 30 0 0 0).1
        0 1 (1/20) 10 30 0 0 0).2
      ≤ (vcruiseStopTick false false false true true 95 0 0 (1/20) 10 30 0 0 0).2 :=
  forced_stop_command_floor_clamped_monotone false 95 0 0 1 (1/20) 10 30 0 0 0
    (by norm_num) (by norm_num) (by norm_num)

/-- Output of one tick of the speed-limit confirmation state machine:
the (possibly updated) confirmed target, the pending flag, and the pending
timer. -/
structure SLCConfirmState where
  slc_target : ℚ
  speed_limit_changed : Bool
  speed_limit_timer : ℚ

/-- One tick of the speed-limit confirmation logic of
FrogPilotVCruise.update (inside the gate
(speed_limit_changed_alert or speed_limit_confirmation) and slc_target != 0):
a change is pending when |slc_target - unconfirmed| > 1, slc_target != 0
and unconfirmed > 1; accepted on (accel input and long active) or the
external confirm signal; denied on (decel input and long active) or
timer >= 30; auto-passes when the relevant directional confirmation toggle
is off; the timer accumulates dt while still pending, else resets to 0. -/
def slcConfirmTick (slc_target unconfirmed : ℚ)
    (accelPressed decelPressed longActive slcConfirmed confLower confHigher : Bool)
    (timer dt : ℚ) : SLCConfirmState :=
  let changed := decide (|slc_target - unconfirmed| > 1) && decide (slc_target ≠ 0)
    && decide (unconfirmed > 1)
  let accepted := changed && ((accelPressed && longActive) || slcConfirmed)
  let denied := changed && ((decelPressed && longActive) || decide (timer ≥ 30))
  let decreased := changed && decide (slc_target - unconfirmed > 1)
  let increased := changed && decide (unconfirmed - slc_target > 1)
  let step : ℚ × Bool :=
    if accepted = true then (unconfirmed, false)
    else if denied = true then (slc_target, false)
    else if (decreased && !confLower) = true then (unconfirmed, false)
    else if (increased && !confHigher) = true then (unconfirmed, false)
    else (slc_target, changed)
  { slc_target := step.1
    speed_limit_changed := step.2
    speed_limit_timer := if step.2 = true then timer + dt else 0 }

theorem slcConfirmTick_timer_zero_of_resolved (slc unc : ℚ)
    (aP dP lA cf cL cH : Bool) (timer dt : ℚ)
    (h : (slcConfirmTick slc unc aP dP lA cf cL cH timer dt).speed_limit_changed = false) :
    (slcConfirmTick slc unc aP dP lA cf cL cH timer dt).speed_limit_timer = 0 := by
  simp only [slcConfirmTick] at h ⊢
  rw [h]
  simp

/-- Counterexample for C6 as stated: a pending change (confirmed target 50,
new limit 30) with the driver pressing decel does NOT resolve to denied
when longitudinal control is inactive — the pending flag stays set and the
timer keeps running, because the denial condition is
(decelPressed AND longActive) or a timer threshold. -/
theorem slc_pending_decel_without_long_active_not_denied :
    (slcConfirmTick 50 30 false true false false true true 0 (1/20)).speed_limit_changed = true
    ∧ (slcConfirmTick 50 30 false true false false true true 0 (1/20)).speed_limit_timer ≠ 0 := by
  constructor
  · simp only [slcConfirmTick]
    norm_num
  · simp only [slcConfirmTick]
    norm_num

/-- Claim C6 (amended): a pending change (target differing by more than one
unit, nonzero targets) resolves to denied on driver decel input WHILE
longitudinal control is active, or once the pending timer (which
accumulates the tick duration dt while pending) has reached 30, provided
no accept input is present; the denial clears the pending flag, resets the
timer to zero, and keeps the old target; and more generally any resolved
tick (pending flag false) leaves the timer at zero. -/
theorem slc_pending_denied_clears_flag_and_timer (slc unc : ℚ)
    (aP dP lA cf cL cH : Bool) (timer dt : ℚ)
    (hpend : |slc - unc| > 1 ∧ slc ≠ 0 ∧ unc > 1)
    (hnoacc : ((aP && lA) || cf) = false)
    (hden : (dP && lA) = true ∨ timer ≥ 30) :
    (slcConfirmTick slc unc aP dP lA cf cL cH timer dt).speed_limit_changed = false
    ∧ (slcConfirmTick slc unc aP dP lA cf cL cH timer dt).speed_limit_timer = 0
    ∧ (slcConfirmTick slc unc aP dP lA cf cL cH timer dt).slc_target = slc
    ∧ (∀ aP2 dP2 lA2 cf2 cL2 cH2 : Bool, ∀ timer2 : ℚ,
        (slcConfirmTick slc unc aP2 dP2 lA2 cf2 cL2 cH2 timer2 dt).speed_limit_changed = false →
        (slcConfirmTick slc unc aP2 dP2 lA2 cf2 cL2 cH2 timer2 dt).speed_limit_timer = 0) := by
  have hch : (decide (|slc - unc| > 1) && decide (slc ≠ 0) && decide (unc > 1)) = true := by
    simp [hpend.1, hpend.2.1, hpend.2.2]
  have hdenb : ((dP && lA) || decide (timer ≥ 30)) = true := by
    rcases hden with h | h
    · simp [h]
    · simp [h]
  have hmain : (slcConfirmTick slc unc aP dP lA cf cL cH timer dt).speed_limit_changed = false
      ∧ (slcConfirmTick slc unc aP dP lA cf cL cH timer dt).speed_limit_timer = 0
      ∧ (slcConfirmTick slc unc aP dP lA cf cL cH timer dt).slc_target = slc := by
    simp only [slcConfirmTick, hch, hnoacc, hdenb, Bool.true_and, Bool.and_false,
      Bool.false_eq_true, if_false, if_true]
    simp
  exact ⟨hmain.1, hmain.2.1, hmain.2.2,
    fun aP2 dP2 lA2 cf2 cL2 cH2 timer2 h =>
      slcConfirmTick_timer_zero_of_resolved slc unc aP2 dP2 lA2 cf2 cL2 cH2 timer2 dt h⟩

/-- Witness for C6 (amended) at a concrete input: pending 50 -> 30 with
decel pressed and longitudinal control active resolves to denied, clearing
the flag and the timer and keeping the old target. -/
theorem slc_pending_denied_clears_flag_and_timer_witness :
    (slcConfirmTick 50 30 false true true false true true 0 (1/20)).speed_limit_changed = false
    ∧ (slcConfirmTick 50 30 false true true false true true 0 (1/20)).speed_limit_timer = 0
    ∧ (slcConfirmTick 50 30 false true true false true true 0 (1/20)).slc_target = 50 := by
  have h := slc_pending_denied_clears_flag_and_timer 50 30 false true true false true true 0 (1/20)
    (by norm_num) (by norm_num) (Or.inl (by norm_num))
  exact ⟨h.1, h.2.1, h.2.2.1⟩

/-- The vision-turn-speed-control section of FrogPilotVCruise.update (the
branch taken when the toggle is on, v_ego > CRUISING_SPEED and
longitudinal control is active).  latAccel stands for
nonlinear_lat_accel(., turn_aggressiveness) and rsqrt for math.sqrt; both
only matter when the curvature branch or the lookahead branch uses them
(in the Python code lat_acc is in fact unbound in the lookahead when
c < 1e-9).  Constants from the source: low/high lateral-accel thresholds
0.20/0.40, smoothing alphas 0.1/0.3/0.2, lookahead distance 150 m,
MAX_DECEL 2, MAX_JERK 1.  Returns (vtsc_target, new current_decel);
vtsc_target_prev is set to the returned target. -/
def vtscUpdate (latAccel rsqrt : ℚ → ℚ)
    (road_curvature v_cruise v_ego dist_to_curve next_curv dt prev_target cur_decel : ℚ) :
    ℚ × ℚ :=
  let c := |road_curvature|
  let v_curvature := if c < 1/1000000000 then v_cruise else rsqrt (latAccel v_ego / c)
  let v_curvature2 := pyclip v_curvature CRUISING_SPEED v_cruise
  let current_lat_acc := c * v_ego ^ 2
  let v_target :=
    if current_lat_acc > 1/5 then
      (if current_lat_acc < 2/5 then (1/10) * prev_target + (1 - 1/10) * v_curvature2
       else (3/10) * prev_target + (1 - 3/10) * v_curvature2)
    else (1/5) * prev_target + (1 - 1/5) * v_cruise
  let v_target2 :=
    if dist_to_curve < 150 ∧ next_curv > 1/2000 then
      let v_curve_ahead := rsqrt (latAccel v_ego / next_curv)
      let fraction := max 0 (1 - dist_to_curve / 150)
      min v_target (v_curve_ahead + fraction * (v_curve_ahead - v_target))
    else v_target
  let desired_decel := if v_target2 < v_ego then pyclip (v_ego - v_target2) 0 2 else 0
  let decel_diff := desired_decel - cur_decel
  let max_delta := 1 * dt
  let new_decel :=
    if decel_diff > max_delta then cur_decel + max_delta
    else if decel_diff < -max_delta then cur_decel - max_delta
    else desired_decel
  (min (v_ego - new_decel * dt) v_target2, new_decel)

/-- Counterexample for C7 as stated: with curvature exactly 0 (below the
1e-9 floor), cruise target 30 m/s but ego at 20 m/s, previous smoothed
target already 30 and no upcoming curve, the controller outputs 20, not
the unmodified cruise target 30 (the jerk-limited projection caps the
output at v_ego). -/
theorem vtsc_zero_curvature_output_not_cruise :
    (vtscUpdate (fun _ => 0) (fun _ => 0) 0 30 20 1000 0 (1/20) 30 0).1 = 20
    ∧ (vtscUpdate (fun _ => 0) (fun _ => 0) 0 30 20 1000 0 (1/20) 30 0).1 ≠ 30 := by
  have h : (vtscUpdate (fun _ => 0) (fun _ => 0) 0 30 20 1000 0 (1/20) 30 0).1 = 20 := by
    norm_num [vtscUpdate, pyclip, CRUISING_SPEED]
  exact ⟨h, by rw [h]; norm_num⟩

/-- Claim C7 (amended): with curvature magnitude below the 1e-9 epsilon
floor the curvature-speed candidate equals the unmodified cruise target,
and the final output equals the cruise target in steady state: previous
smoothed target already at the cruise target, ramped decel zero, ego speed
at the cruise target, no upcoming-curve pre-slow and lateral acceleration
at most the low threshold.  (Out of steady state the output can differ
from the cruise target, per the counterexample.) -/
theorem vtsc_zero_curvature_steady_state (latAccel rsqrt : ℚ → ℚ)
    (curv v_cruise d nc dt : ℚ)
    (hc : |curv| < 1/1000000000)
    (hlat : |curv| * v_cruise ^ 2 ≤ 1/5)
    (hla : ¬ (d < 150 ∧ nc > 1/2000))
    (hvc : CRUISING_SPEED ≤ v_cruise)
    (hdt : 0 ≤ dt) :
    (vtscUpdate latAccel rsqrt curv v_cruise v_cruise d nc dt v_cruise 0).1 = v_cruise := by
  have hclip : pyclip v_cruise CRUISING_SPEED v_cruise = v_cruise := by
    rw [pyclip, min_self]
    exact max_eq_right hvc
  have ht : (1/5 : ℚ) * v_cruise + (1 - 1/5) * v_cruise = v_cruise := by ring
  simp only [vtscUpdate]
  rw [if_pos hc, hclip, if_neg (not_lt.mpr hlat), ht, if_neg hla,
    if_neg (lt_irrefl v_cruise)]
  rw [if_neg (by linarith : ¬ ((0:ℚ) - 0 > 1 * dt)),
    if_neg (by linarith : ¬ ((0:ℚ) - 0 < -(1 * dt)))]
  rw [zero_mul, sub_zero, min_self]

/-- Witness for C7 (amended) at a concrete input: zero curvature, cruise
target 30 m/s, ego at 30 m/s, settled previous target and zero ramped
decel give output exactly 30. -/
theorem vtsc_zero_curvature_steady_state_witness :
    (vtscUpdate (fun _ => 0) (fun _ => 0) 0 30 30 1000 0 (1/20) 30 0).1 = 30 :=
  vtsc_zero_curvature_steady_state (fun _ => 0) (fun _ => 0) 0 30 1000 0 (1/20)
    (by norm_num) (by norm_num) (by norm_num) (by norm_num [CRUISING_SPEED]) (by norm_num)

end FrogPilot
